import Mathlib

/-!
# text-viewer: the window's open / save handlers

A shallow embedding of `src/text-viewer-window.c`.  The C file is event-handler
code around GTK, GLib and GIO.  Every handler becomes a pure function on a
`State` record that holds what the handlers read and write: the process-wide
`opened_file`, the text buffer of `main_text_view`, the window title, the
`cursor_pos` label, the toasts handed to `toast_overlay`, the lines printed with
`g_printerr` and the asynchronous GIO calls that were issued.

What the toolkit hands to a callback (the file picked in a dialog, the outcome
of a read or of a write, the answer of `g_file_query_info`) is an argument of
the handler.  The toolkit calls whose result the handlers depend on
(`g_utf8_validate`, `gtk_text_buffer_set_text`, `gtk_text_buffer_get_text`,
`strlen`, `gtk_text_buffer_get_iter_at_offset`) are modelled after their
documented behaviour; each model says so in its comment.

The signal `notify::cursor-position`, which GTK emits when the cursor of the
buffer moves, is a callback of its own here (`Event.cursor_moved`).

Bytes are natural numbers; a C string is the list of its bytes without the
terminating zero.  A `gsize` is a natural number; where the C code hands one to
an `int` parameter the conversion is written out (`gsize_to_int`).
-/

namespace TextViewer

/-! ## Toolkit values -/

/-- A `GFile`: the location it names and the base name `g_file_get_basename`
returns for it. -/
structure GFile where
  path : String
  basename : String
  deriving DecidableEq, Repr

/-- A `GFileInfo` obtained by asking for `"standard::display-name"`: the value
of that attribute. -/
structure GFileInfo where
  display_name : String
  deriving DecidableEq, Repr

/-- A `GError`, of which the handlers only use the message. -/
structure GError where
  message : String
  deriving DecidableEq, Repr

/-- The buffer of a `GtkTextView`: its text and the `cursor-position` property
(a character offset). -/
structure GtkTextBuffer where
  text : String
  cursor_position : Nat
  deriving DecidableEq, Repr

/-- An asynchronous GIO call issued by a handler. -/
inductive AsyncOp where
  | load_contents (file : GFile)
  | replace_contents (file : GFile) (bytes : List Nat)
  deriving DecidableEq, Repr

/-- Outcome of `g_file_load_contents_finish`: either `error` is set, or
`contents` holds `length` bytes. -/
inductive LoadResult where
  | error (e : GError)
  | contents (bytes : List Nat)
  deriving DecidableEq, Repr

/-! ## UTF-8 -/

/-- The UTF-8 encoding of one character (RFC 3629): how a character of the
buffer appears in the `char *` that `gtk_text_buffer_get_text` returns. -/
def utf8EncodeChar (c : Char) : List Nat :=
  let v := c.toNat
  if v < 0x80 then [v]
  else if v < 0x800 then [0xC0 + v / 64, 0x80 + v % 64]
  else if v < 0x10000 then [0xE0 + v / 4096, 0x80 + v / 64 % 64, 0x80 + v % 64]
  else [0xF0 + v / 262144, 0x80 + v / 4096 % 64, 0x80 + v / 64 % 64, 0x80 + v % 64]

/-- The UTF-8 encoding of a text. -/
def utf8Encode : List Char → List Nat
  | [] => []
  | c :: cs => utf8EncodeChar c ++ utf8Encode cs

/-- A continuation byte `10xxxxxx`. -/
def isCont (b : Nat) : Bool := decide (0x80 ≤ b) && decide (b < 0xC0)

/-- Put a decoded character in front of the decoding of the rest. -/
def consChar (v : Nat) (rest : Option (List Char)) : Option (List Char) :=
  match rest with
  | some cs => some (Char.ofNat v :: cs)
  | none => none

/-- The strict UTF-8 decoder of RFC 3629: `some text` when the bytes are
well-formed UTF-8 (shortest form, no surrogate, at most U+10FFFF), and then
`text` is the decoded text; `none` otherwise.  The zero byte is the well-formed
encoding of U+0000. -/
def utf8Decode : List Nat → Option (List Char)
  | [] => some []
  | b0 :: rest =>
    if b0 < 0x80 then consChar b0 (utf8Decode rest)
    else if b0 < 0xC2 then none
    else if b0 < 0xE0 then
      match rest with
      | b1 :: r1 =>
        if isCont b1 then consChar ((b0 - 0xC0) * 64 + (b1 - 0x80)) (utf8Decode r1)
        else none
      | [] => none
    else if b0 < 0xF0 then
      match rest with
      | b1 :: b2 :: r2 =>
        let v := (b0 - 0xE0) * 4096 + (b1 - 0x80) * 64 + (b2 - 0x80)
        if isCont b1 && isCont b2 && decide (0x800 ≤ v) && !(decide (0xD800 ≤ v) && decide (v ≤ 0xDFFF))
        then consChar v (utf8Decode r2)
        else none
      | _ => none
    else if b0 < 0xF5 then
      match rest with
      | b1 :: b2 :: b3 :: r3 =>
        let v := (b0 - 0xF0) * 262144 + (b1 - 0x80) * 4096 + (b2 - 0x80) * 64 + (b3 - 0x80)
        if isCont b1 && isCont b2 && isCont b3 && decide (0x10000 ≤ v) && decide (v ≤ 0x10FFFF)
        then consChar v (utf8Decode r3)
        else none
      | _ => none
    else none

/-! ## GLib and GTK calls the handlers depend on -/

/-- `g_utf8_validate (str, max_len, NULL)` for `max_len ≥ 0`, where `str` are
the `max_len` bytes.  GLib documents it as true exactly when the bytes are
valid UTF-8, and adds: "returns FALSE if max_len is positive and any of the
max_len bytes are nul". -/
def g_utf8_validate (str : List Nat) : Bool :=
  decide (0 ∉ str) && (utf8Decode str).isSome

/-- `strlen`: the number of bytes before the first zero byte. -/
def strlen (s : List Nat) : Nat := (s.takeWhile (fun b => b != 0)).length

/-- `g_bytes_new_take (data, size)`: the first `size` bytes of `data`. -/
def g_bytes_new_take (data : List Nat) (size : Nat) : List Nat := data.take size

/-- A `GtkTextIter`: a position in a buffer, as its character offset, the
number of its line, and its character offset within that line. -/
structure GtkTextIter where
  offset : Nat
  line : Nat
  line_offset : Nat
  deriving DecidableEq, Repr

/-- Whether a paragraph delimiter ends with the character `c`, which is
followed by `next`.  For GTK the delimiters that end a line "will be either a
newline, a carriage return, a carriage return followed by a newline, or a
Unicode paragraph separator character" (documentation of
`gtk_text_iter_ends_line`). -/
def endsParagraph (c : Char) (next : Option Char) : Bool :=
  c == '\n' || c == '\u2029' || (c == '\r' && next != some '\n')

/-- Move an iterator forward over at most `n` characters of `rest`, the text
that follows it: behind a paragraph delimiter a new line starts. -/
def iter_forward_chars : List Char → Nat → GtkTextIter → GtkTextIter
  | [], _, iter => iter
  | _ :: _, 0, iter => iter
  | c :: rest, n + 1, iter =>
    if endsParagraph c rest.head? then
      iter_forward_chars rest n ⟨iter.offset + 1, iter.line + 1, 0⟩
    else
      iter_forward_chars rest n ⟨iter.offset + 1, iter.line, iter.line_offset + 1⟩

/-- `gtk_text_buffer_get_start_iter`. -/
def gtk_text_buffer_get_start_iter (_buffer : GtkTextBuffer) : GtkTextIter := ⟨0, 0, 0⟩

/-- `gtk_text_buffer_get_iter_at_offset`: the position `char_offset`
characters from the start of the buffer, or the end of the buffer when
`char_offset` is greater than the number of characters. -/
def gtk_text_buffer_get_iter_at_offset (buffer : GtkTextBuffer) (char_offset : Nat) :
    GtkTextIter :=
  iter_forward_chars buffer.text.data char_offset ⟨0, 0, 0⟩

/-- `gtk_text_buffer_get_end_iter`. -/
def gtk_text_buffer_get_end_iter (buffer : GtkTextBuffer) : GtkTextIter :=
  gtk_text_buffer_get_iter_at_offset buffer buffer.text.length

/-- `gtk_text_iter_get_line`. -/
def gtk_text_iter_get_line (iter : GtkTextIter) : Nat := iter.line

/-- `gtk_text_iter_get_line_offset`. -/
def gtk_text_iter_get_line_offset (iter : GtkTextIter) : Nat := iter.line_offset

/-- `gtk_text_buffer_get_text (buffer, start, end, FALSE)`: the text between
the two positions as a newly allocated UTF-8 string.  The result is `some`
bytes for every buffer, the empty one included: GTK returns an allocated
string, never `NULL`. -/
def gtk_text_buffer_get_text (buffer : GtkTextBuffer) (start end_ : GtkTextIter) :
    Option (List Nat) :=
  some (utf8Encode ((buffer.text.data.drop start.offset).take (end_.offset - start.offset)))

/-- The conversion of a `gsize` to `int`: the low 32 bits, read as a signed
number. -/
def gsize_to_int (n : Nat) : Int :=
  if n % 2 ^ 32 < 2 ^ 31 then ((n % 2 ^ 32 : Nat) : Int)
  else ((n % 2 ^ 32 : Nat) : Int) - 2 ^ 32

/-- `gtk_text_buffer_set_text (buffer, text, len)` with its `int len`: a
negative `len` stands for `strlen (text)`; the content of the buffer is
deleted and, when `len > 0`, the first `len` bytes of `text` are inserted; the
insertion is refused when they are not valid UTF-8.  The cursor ends behind the
inserted text. -/
def gtk_text_buffer_set_text (_buffer : GtkTextBuffer) (text : List Nat) (len : Int) :
    GtkTextBuffer :=
  let len := if len < 0 then gsize_to_int (strlen text) else len
  if len > 0 then
    let inserted := text.take len.toNat
    match (if g_utf8_validate inserted then utf8Decode inserted else none) with
    | some cs => { text := String.mk cs, cursor_position := cs.length }
    | none => { text := "", cursor_position := 0 }
  else { text := "", cursor_position := 0 }

/-- `gtk_text_buffer_place_cursor`. -/
def gtk_text_buffer_place_cursor (buffer : GtkTextBuffer) (where_ : GtkTextIter) :
    GtkTextBuffer :=
  { buffer with cursor_position := where_.offset }

/-! ## The window -/

/-- What the handlers read and write: the global `opened_file`, the buffer of
`self->main_text_view`, the window title, the text of the label
`self->cursor_pos`, the toasts added to `self->toast_overlay`, the lines
written with `g_printerr`, and the asynchronous calls issued so far. -/
structure State where
  opened_file : Option GFile
  buffer : GtkTextBuffer
  title : String
  cursor_pos : String
  toasts : List String
  stderr : List String
  async_calls : List AsyncOp
  deriving DecidableEq, Repr

/-- The `error` argument after `g_file_load_contents_finish`. -/
def LoadResult.err : LoadResult → Option GError
  | .error e => some e
  | .contents _ => none

/-- The `contents` (of `length` bytes) after `g_file_load_contents_finish`;
nothing when the call failed. -/
def LoadResult.bytes : LoadResult → List Nat
  | .error _ => []
  | .contents b => b

/-- `adw_toast_overlay_add_toast (self->toast_overlay, adw_toast_new (msg))`. -/
def add_toast (self : State) (msg : String) : State :=
  { self with toasts := self.toasts ++ [msg] }

/-- `g_printerr`. -/
def g_printerr (self : State) (line : String) : State :=
  { self with stderr := self.stderr ++ [line] }

/-- The display name both completion handlers compute: the
`standard::display-name` of the file when `g_file_query_info` answered, its
base name otherwise. -/
def query_display_name (file : GFile) (info : Option GFileInfo) : String :=
  match info with
  | some i => i.display_name
  | none => file.basename

/-- `open_file_complete`: the callback of `g_file_load_contents_async`.
`result` is what `g_file_load_contents_finish` yields and `info` the answer of
`g_file_query_info`. -/
def open_file_complete (self : State) (file : GFile) (result : LoadResult)
    (info : Option GFileInfo) : State :=
  let contents := result.bytes
  let length := contents.length
  let error := result.err
  let display_name := query_display_name file info
  if error.isSome then
    add_toast self ("Unable to open “" ++ display_name ++ "”")
  else if !g_utf8_validate contents then
    add_toast self ("Invalid text encoding for “" ++ display_name ++ "”")
  else if error.isSome then
    g_printerr self ("Unable to open “" ++ file.path ++ "”: "
      ++ (match error with | some e => e.message | none => "") ++ "\n")
  else if !g_utf8_validate contents then
    g_printerr self ("Unable to load the contents of “" ++ file.path
      ++ "”: the file is not encoded with UTF-8\n")
  else
    let buffer := gtk_text_buffer_set_text self.buffer contents (gsize_to_int length)
    let start := gtk_text_buffer_get_start_iter buffer
    let buffer := gtk_text_buffer_place_cursor buffer start
    let self := { self with buffer := buffer, title := display_name }
    add_toast self ("Opened “" ++ display_name ++ "”")

/-- `open_file`: issues `g_file_load_contents_async`. -/
def open_file (self : State) (file : GFile) : State :=
  { self with async_calls := self.async_calls ++ [AsyncOp.load_contents file] }

/-- `on_open_response`: the callback of the open dialog.  `finish` is what
`gtk_file_dialog_open_finish` returns, `none` when no file was chosen. -/
def on_open_response (self : State) (finish : Option GFile) : State :=
  let self := { self with opened_file := finish }
  match self.opened_file with
  | some file => open_file self file
  | none => self

/-- `text_viewer_window__update_cursor_position`: the handler of
`notify::cursor-position`. -/
def text_viewer_window__update_cursor_position (self : State) : State :=
  let cursor_pos := self.buffer.cursor_position
  let iter := gtk_text_buffer_get_iter_at_offset self.buffer cursor_pos
  let cursor_str := "Ln " ++ toString (gtk_text_iter_get_line iter + 1)
    ++ ", Col " ++ toString (gtk_text_iter_get_line_offset iter + 1)
  { self with cursor_pos := cursor_str }

/-- `save_file_complete`: the callback of
`g_file_replace_contents_bytes_async`.  `error` is what
`g_file_replace_contents_finish` sets. -/
def save_file_complete (self : State) (file : GFile) (error : Option GError)
    (info : Option GFileInfo) : State :=
  let display_name := query_display_name file info
  let self :=
    match error with
    | some e => g_printerr self ("Unable to save “" ++ display_name ++ "”: " ++ e.message ++ "\n")
    | none => self
  let msg :=
    if error.isSome then "Unable to save as “" ++ display_name ++ "”"
    else "Saved as “" ++ display_name ++ "”"
  add_toast self msg

/-- `save_file`. -/
def save_file (self : State) (file : GFile) : State :=
  let buffer := self.buffer
  let start := gtk_text_buffer_get_start_iter buffer
  let end_ := gtk_text_buffer_get_end_iter buffer
  match gtk_text_buffer_get_text buffer start end_ with
  | none => self
  | some text =>
    let bytes := g_bytes_new_take text (strlen text)
    { self with async_calls := self.async_calls ++ [AsyncOp.replace_contents file bytes] }

/-- `on_save_response`: the callback of the save dialog.  `finish` is what
`gtk_file_dialog_save_finish` returns, `none` when no file was chosen. -/
def on_save_response (self : State) (finish : Option GFile) : State :=
  let self := { self with opened_file := finish }
  match self.opened_file with
  | some file => save_file self file
  | none => self

/-- `just_save_the_opened_file`: the handler of the `just-save` action. -/
def just_save_the_opened_file (self : State) : State :=
  match self.opened_file with
  | none => g_printerr self "No file is currently opened to save.\n"
  | some opened =>
    let buffer := self.buffer
    let start := gtk_text_buffer_get_start_iter buffer
    let end_ := gtk_text_buffer_get_end_iter buffer
    match gtk_text_buffer_get_text buffer start end_ with
    | none => self
    | some text =>
      let bytes := g_bytes_new_take text (strlen text)
      { self with async_calls := self.async_calls ++ [AsyncOp.replace_contents opened bytes] }

/-! ## Runs of the window -/

/-- The callbacks the main loop can invoke, with what it passes to them. -/
inductive Event where
  | open_response (finish : Option GFile)
  | open_complete (file : GFile) (result : LoadResult) (info : Option GFileInfo)
  | save_response (finish : Option GFile)
  | save_complete (file : GFile) (error : Option GError) (info : Option GFileInfo)
  | just_save
  | cursor_moved
  deriving DecidableEq, Repr

/-- Dispatch of one callback. -/
def step (self : State) : Event → State
  | .open_response finish => on_open_response self finish
  | .open_complete file result info => open_file_complete self file result info
  | .save_response finish => on_save_response self finish
  | .save_complete file error info => save_file_complete self file error info
  | .just_save => just_save_the_opened_file self
  | .cursor_moved => text_viewer_window__update_cursor_position self

/-- The callbacks of a session run one after the other on the main loop. -/
def run (self : State) (events : List Event) : State := events.foldl step self

/-- A file picker that was closed without a choice. -/
def Event.isCancelledPicker : Event → Bool
  | .open_response none => true
  | .save_response none => true
  | _ => false

/-! ## Lines and columns, counted -/

/-- Whether the character at position `p` of `text` is the last character of a
line break. -/
def lineBreakEndsAt (text : List Char) (p : Nat) : Bool :=
  match text.drop p with
  | [] => false
  | c :: next => endsParagraph c next.head?

/-- The number of line breaks among the characters before `offset`. -/
def lineBreaksBefore (text : List Char) (offset : Nat) : Nat :=
  ((List.range offset).filter (lineBreakEndsAt text)).length

/-- The start of the line of `offset`: the position behind the last line break
among the characters before `offset`, or 0 when there is none. -/
def lineStart (text : List Char) : Nat → Nat
  | 0 => 0
  | p + 1 => if lineBreakEndsAt text p then p + 1 else lineStart text p

/-! ## A storage for the round trip -/

/-- The content of every location, when it has one. -/
def Storage := GFile → Option (List Nat)

/-- A successful replace stores exactly the written bytes. -/
def Storage.replaceAll (st : Storage) (file : GFile) (bytes : List Nat) : Storage :=
  fun f => if f = file then some bytes else st f

/-- A read yields the stored bytes, and fails where nothing is stored. -/
def Storage.readAll (st : Storage) (file : GFile) : LoadResult :=
  match st file with
  | some bytes => LoadResult.contents bytes
  | none => LoadResult.error { message := "No such file or directory" }

/-- The storage after an asynchronous call succeeded. -/
def Storage.perform (st : Storage) : AsyncOp → Storage
  | .load_contents _ => st
  | .replace_contents file bytes => st.replaceAll file bytes

/-- The calls issued between the state `before` and the later state `after`. -/
def issued (before after : State) : List AsyncOp :=
  after.async_calls.drop before.async_calls.length

/-- A storage without any content. -/
def emptyStorage : Storage := fun _ => none

/-! ## Concrete windows and files -/

/-- A window right after start: nothing opened, an empty buffer. -/
def window0 : State :=
  { opened_file := none, buffer := { text := "", cursor_position := 0 }, title := "",
    cursor_pos := "", toasts := [], stderr := [], async_calls := [] }

/-- A file. -/
def notes : GFile := { path := "/home/user/notes.txt", basename := "notes.txt" }

/-- Another file. -/
def draft : GFile := { path := "/home/user/draft.txt", basename := "draft.txt" }

/-- A window that shows `notes` with the text "hello". -/
def window1 : State :=
  { opened_file := some notes, buffer := { text := "hello", cursor_position := 2 },
    title := "notes.txt", cursor_pos := "Ln 1, Col 3", toasts := ["Opened “notes.txt”"],
    stderr := [], async_calls := [AsyncOp.load_contents notes] }

/-- A window whose buffer holds 2^30 times the character "é": 2^31 bytes of
UTF-8. -/
def longWindow : State :=
  { window0 with
    buffer := { text := String.mk (List.replicate 1073741824 'é'), cursor_position := 0 } }

/-! ## UTF-8: decoding undoes encoding -/

/-- A character is a Unicode scalar value. -/
theorem char_valid (c : Char) : c.toNat < 0xD800 ∨ (0xDFFF < c.toNat ∧ c.toNat < 0x110000) := by
  have h := c.valid
  simp only [UInt32.isValidChar, Nat.isValidChar] at h
  exact h

theorem utf8Decode_cons (b0 : Nat) (rest : List Nat) :
    utf8Decode (b0 :: rest) =
    if b0 < 0x80 then consChar b0 (utf8Decode rest)
    else if b0 < 0xC2 then none
    else if b0 < 0xE0 then
      match rest with
      | b1 :: r1 =>
        if isCont b1 then consChar ((b0 - 0xC0) * 64 + (b1 - 0x80)) (utf8Decode r1)
        else none
      | [] => none
    else if b0 < 0xF0 then
      match rest with
      | b1 :: b2 :: r2 =>
        let v := (b0 - 0xE0) * 4096 + (b1 - 0x80) * 64 + (b2 - 0x80)
        if isCont b1 && isCont b2 && decide (0x800 ≤ v) && !(decide (0xD800 ≤ v) && decide (v ≤ 0xDFFF))
        then consChar v (utf8Decode r2)
        else none
      | _ => none
    else if b0 < 0xF5 then
      match rest with
      | b1 :: b2 :: b3 :: r3 =>
        let v := (b0 - 0xF0) * 262144 + (b1 - 0x80) * 4096 + (b2 - 0x80) * 64 + (b3 - 0x80)
        if isCont b1 && isCont b2 && isCont b3 && decide (0x10000 ≤ v) && decide (v ≤ 0x10FFFF)
        then consChar v (utf8Decode r3)
        else none
      | _ => none
    else none := by
  cases rest with
  | nil => rfl
  | cons b1 r1 =>
    cases r1 with
    | nil => rfl
    | cons b2 r2 =>
      cases r2 with
      | nil => rfl
      | cons b3 r3 => rfl

theorem utf8Decode_encodeChar (c : Char) (rest : List Nat) :
    utf8Decode (utf8EncodeChar c ++ rest) = consChar c.toNat (utf8Decode rest) := by
  have hv := char_valid c
  unfold utf8EncodeChar
  simp only []
  by_cases h1 : c.toNat < 0x80
  · rw [if_pos h1]
    show utf8Decode (c.toNat :: rest) = _
    rw [utf8Decode_cons, if_pos h1]
  · by_cases h2 : c.toNat < 0x800
    · have e : (0xC0 + c.toNat / 64 - 0xC0) * 64 + (0x80 + c.toNat % 64 - 0x80) = c.toNat := by omega
      have a1 : ¬ (0xC0 + c.toNat / 64 < 0x80) := by omega
      have a2 : ¬ (0xC0 + c.toNat / 64 < 0xC2) := by omega
      have a3 : (0xC0 + c.toNat / 64 < 0xE0) := by omega
      have a4 : isCont (0x80 + c.toNat % 64) = true := by simp [isCont]; omega
      rw [if_neg h1, if_pos h2]
      show utf8Decode ((0xC0 + c.toNat / 64) :: (0x80 + c.toNat % 64) :: rest) = _
      rw [utf8Decode_cons, if_neg a1, if_neg a2, if_pos a3]
      simp only [a4, if_true, e]
    · by_cases h3 : c.toNat < 0x10000
      · have e : (0xE0 + c.toNat / 4096 - 0xE0) * 4096 + (0x80 + c.toNat / 64 % 64 - 0x80) * 64
            + (0x80 + c.toNat % 64 - 0x80) = c.toNat := by omega
        have a1 : ¬ (0xE0 + c.toNat / 4096 < 0x80) := by omega
        have a2 : ¬ (0xE0 + c.toNat / 4096 < 0xC2) := by omega
        have a3 : ¬ (0xE0 + c.toNat / 4096 < 0xE0) := by omega
        have a4 : (0xE0 + c.toNat / 4096 < 0xF0) := by omega
        have c1 : isCont (0x80 + c.toNat / 64 % 64) = true := by simp [isCont]; omega
        have c2 : isCont (0x80 + c.toNat % 64) = true := by simp [isCont]; omega
        have g1 : decide (0x800 ≤ c.toNat) = true := by simp; omega
        have g2 : (decide (0xD800 ≤ c.toNat) && decide (c.toNat ≤ 0xDFFF)) = false := by
          simp; omega
        rw [if_neg h1, if_neg h2, if_pos h3]
        show utf8Decode ((0xE0 + c.toNat / 4096) :: (0x80 + c.toNat / 64 % 64)
          :: (0x80 + c.toNat % 64) :: rest) = _
        rw [utf8Decode_cons, if_neg a1, if_neg a2, if_neg a3, if_pos a4]
        simp only [c1, c2, e, g1, g2, Bool.and_self, Bool.not_false, if_true]
      · have e : (0xF0 + c.toNat / 262144 - 0xF0) * 262144 + (0x80 + c.toNat / 4096 % 64 - 0x80) * 4096
            + (0x80 + c.toNat / 64 % 64 - 0x80) * 64 + (0x80 + c.toNat % 64 - 0x80) = c.toNat := by omega
        have a1 : ¬ (0xF0 + c.toNat / 262144 < 0x80) := by omega
        have a2 : ¬ (0xF0 + c.toNat / 262144 < 0xC2) := by omega
        have a3 : ¬ (0xF0 + c.toNat / 262144 < 0xE0) := by omega
        have a4 : ¬ (0xF0 + c.toNat / 262144 < 0xF0) := by omega
        have a5 : (0xF0 + c.toNat / 262144 < 0xF5) := by omega
        have c1 : isCont (0x80 + c.toNat / 4096 % 64) = true := by simp [isCont]; omega
        have c2 : isCont (0x80 + c.toNat / 64 % 64) = true := by simp [isCont]; omega
        have c3 : isCont (0x80 + c.toNat % 64) = true := by simp [isCont]; omega
        have g1 : decide (0x10000 ≤ c.toNat) = true := by simp; omega
        have g2 : decide (c.toNat ≤ 0x10FFFF) = true := by simp; omega
        rw [if_neg h1, if_neg h2, if_neg h3]
        show utf8Decode ((0xF0 + c.toNat / 262144) :: (0x80 + c.toNat / 4096 % 64)
          :: (0x80 + c.toNat / 64 % 64) :: (0x80 + c.toNat % 64) :: rest) = _
        rw [utf8Decode_cons, if_neg a1, if_neg a2, if_neg a3, if_neg a4, if_pos a5]
        simp only [c1, c2, c3, e, g1, g2, Bool.and_self, if_true]

theorem utf8Decode_encode (cs : List Char) : utf8Decode (utf8Encode cs) = some cs := by
  induction cs with
  | nil => rfl
  | cons c cs ih =>
    show utf8Decode (utf8EncodeChar c ++ utf8Encode cs) = _
    rw [utf8Decode_encodeChar, ih]
    simp [consChar]

theorem utf8EncodeChar_ne_zero (c : Char) (hc : c ≠ '\x00') : 0 ∉ utf8EncodeChar c := by
  have hne : c.toNat ≠ 0 := by
    intro h
    apply hc
    rw [← Char.ofNat_toNat c, h]
  unfold utf8EncodeChar
  simp only []
  split_ifs <;> simp <;> omega

theorem utf8Encode_no_zero (cs : List Char) (h : '\x00' ∉ cs) : 0 ∉ utf8Encode cs := by
  induction cs with
  | nil => simp [utf8Encode]
  | cons c cs ih =>
    simp only [List.mem_cons, not_or] at h
    simp only [utf8Encode, List.mem_append, not_or]
    exact ⟨utf8EncodeChar_ne_zero c (fun e => h.1 e.symm), ih h.2⟩


/-! ## The handlers, step by step -/

theorem on_open_response_some (s : State) (file : GFile) :
    on_open_response s (some file) =
      { s with opened_file := some file,
               async_calls := s.async_calls ++ [AsyncOp.load_contents file] } := rfl

theorem on_open_response_none (s : State) :
    on_open_response s none = { s with opened_file := none } := rfl

theorem open_file_complete_error (s : State) (file : GFile) (e : GError)
    (info : Option GFileInfo) :
    open_file_complete s file (LoadResult.error e) info =
      add_toast s ("Unable to open “" ++ query_display_name file info ++ "”") := rfl

theorem open_file_complete_invalid (s : State) (file : GFile) (B : List Nat)
    (info : Option GFileInfo) (h : g_utf8_validate B = false) :
    open_file_complete s file (LoadResult.contents B) info =
      add_toast s ("Invalid text encoding for “" ++ query_display_name file info ++ "”") := by
  simp [open_file_complete, LoadResult.err, LoadResult.bytes, h]

theorem gsize_to_int_of_lt (n : Nat) (h : n < 2 ^ 31) : gsize_to_int n = (n : Int) := by
  unfold gsize_to_int
  have h1 : n % 2 ^ 32 = n := Nat.mod_eq_of_lt (by omega)
  rw [h1, if_pos h]

theorem set_text_valid (buffer : GtkTextBuffer) (B : List Nat) (text : List Char)
    (hlen : B.length < 2 ^ 31) (h0 : 0 ∉ B) (hd : utf8Decode B = some text) :
    gtk_text_buffer_set_text buffer B (gsize_to_int B.length)
      = { text := String.mk text, cursor_position := text.length } := by
  have hv : g_utf8_validate B = true := by simp [g_utf8_validate, h0, hd]
  unfold gtk_text_buffer_set_text
  rw [gsize_to_int_of_lt _ hlen]
  have hneg : ¬ ((B.length : Int) < 0) := by omega
  simp only [hneg, if_false]
  cases B with
  | nil =>
    have ht : text = [] := by
      have : utf8Decode [] = some ([] : List Char) := rfl
      rw [this] at hd
      exact (Option.some.inj hd).symm
    subst ht
    rfl
  | cons b bs =>
    have hpos : ((b :: bs).length : Int) > 0 := by
      rw [List.length_cons]
      omega
    simp only [hpos, if_true, Int.toNat_ofNat, List.take_length, hv, hd]

theorem open_file_complete_valid (s : State) (file : GFile) (B : List Nat)
    (info : Option GFileInfo) (text : List Char) (hlen : B.length < 2 ^ 31) (h0 : 0 ∉ B)
    (hd : utf8Decode B = some text) :
    open_file_complete s file (LoadResult.contents B) info =
      { s with buffer := { text := String.mk text, cursor_position := 0 },
               title := query_display_name file info,
               toasts := s.toasts ++ ["Opened “" ++ query_display_name file info ++ "”"] } := by
  have hv : g_utf8_validate B = true := by simp [g_utf8_validate, h0, hd]
  simp [open_file_complete, LoadResult.err, LoadResult.bytes, hv,
    set_text_valid s.buffer B text hlen h0 hd,
    gtk_text_buffer_place_cursor, gtk_text_buffer_get_start_iter, add_toast]

theorem g_utf8_validate_of_decode_none (B : List Nat) (h : utf8Decode B = none) :
    g_utf8_validate B = false := by
  simp [g_utf8_validate, h]

theorem iter_forward_chars_cons (c : Char) (rest : List Char) (n : Nat) (iter : GtkTextIter) :
    iter_forward_chars (c :: rest) (n + 1) iter =
      if endsParagraph c rest.head? then
        iter_forward_chars rest n ⟨iter.offset + 1, iter.line + 1, 0⟩
      else
        iter_forward_chars rest n ⟨iter.offset + 1, iter.line, iter.line_offset + 1⟩ := rfl

theorem iter_forward_chars_offset (l : List Char) (n : Nat) (iter : GtkTextIter) :
    (iter_forward_chars l n iter).offset = iter.offset + min n l.length := by
  induction l generalizing n iter with
  | nil => simp [iter_forward_chars]
  | cons c rest ih =>
    cases n with
    | zero => simp [iter_forward_chars]
    | succ n =>
      have hmin : min (n + 1) (c :: rest).length = min n rest.length + 1 := by
        simp [Nat.succ_min_succ]
      rw [hmin, iter_forward_chars_cons]
      split_ifs
      · rw [ih]; simp only []; omega
      · rw [ih]; simp only []; omega

theorem get_text_all (buffer : GtkTextBuffer) :
    gtk_text_buffer_get_text buffer (gtk_text_buffer_get_start_iter buffer)
      (gtk_text_buffer_get_end_iter buffer) = some (utf8Encode buffer.text.data) := by
  have h : (gtk_text_buffer_get_end_iter buffer).offset = buffer.text.data.length := by
    unfold gtk_text_buffer_get_end_iter gtk_text_buffer_get_iter_at_offset
    rw [iter_forward_chars_offset]
    show 0 + min buffer.text.data.length buffer.text.data.length = _
    omega
  unfold gtk_text_buffer_get_text gtk_text_buffer_get_start_iter
  rw [h]
  simp only [List.drop_zero, Nat.sub_zero, List.take_length]

theorem take_strlen (text : List Nat) :
    g_bytes_new_take text (strlen text) = text.takeWhile (fun b => b != 0) := by
  unfold g_bytes_new_take strlen
  induction text with
  | nil => rfl
  | cons b bs ih =>
    by_cases hb : b = 0
    · subst hb
      rfl
    · have hb2 : (b != 0) = true := by simpa using hb
      have e : List.takeWhile (fun b => b != 0) (b :: bs)
          = b :: List.takeWhile (fun b => b != 0) bs := by
        rw [List.takeWhile_cons]
        simp only [hb2, if_true]
      rw [e]
      simp only [List.length_cons, List.take_succ_cons, ih]

theorem take_strlen_of_no_zero (text : List Nat) (h : 0 ∉ text) :
    g_bytes_new_take text (strlen text) = text := by
  rw [take_strlen]
  apply List.takeWhile_eq_self_iff.mpr
  intro b hb
  simp only [bne_iff_ne, ne_eq]
  intro e
  exact h (e ▸ hb)

theorem save_file_eq (s : State) (file : GFile) :
    save_file s file =
      { s with async_calls := s.async_calls ++
          [AsyncOp.replace_contents file
            ((utf8Encode s.buffer.text.data).takeWhile (fun b => b != 0))] } := by
  simp only [save_file, get_text_all, take_strlen]

theorem just_save_eq (s : State) (file : GFile) (h : s.opened_file = some file) :
    just_save_the_opened_file s =
      { s with async_calls := s.async_calls ++
          [AsyncOp.replace_contents file
            ((utf8Encode s.buffer.text.data).takeWhile (fun b => b != 0))] } := by
  simp only [just_save_the_opened_file, h, get_text_all, take_strlen]

theorem save_file_complete_error (s : State) (file : GFile) (e : GError)
    (info : Option GFileInfo) :
    save_file_complete s file (some e) info =
      { s with stderr := s.stderr ++
                 ["Unable to save “" ++ query_display_name file info ++ "”: " ++ e.message ++ "\n"],
               toasts := s.toasts ++ ["Unable to save as “" ++ query_display_name file info ++ "”"] } :=
  rfl

theorem save_file_complete_ok (s : State) (file : GFile) (info : Option GFileInfo) :
    save_file_complete s file none info =
      { s with toasts := s.toasts ++ ["Saved as “" ++ query_display_name file info ++ "”"] } :=
  rfl

theorem open_file_complete_opened_file (s : State) (file : GFile) (result : LoadResult)
    (info : Option GFileInfo) :
    (open_file_complete s file result info).opened_file = s.opened_file := by
  unfold open_file_complete
  simp only []
  split_ifs <;> rfl

theorem save_file_complete_opened_file (s : State) (file : GFile) (error : Option GError)
    (info : Option GFileInfo) :
    (save_file_complete s file error info).opened_file = s.opened_file := by
  cases error <;> rfl

theorem just_save_opened_file (s : State) :
    (just_save_the_opened_file s).opened_file = s.opened_file := by
  cases h : s.opened_file with
  | none => simp [just_save_the_opened_file, h, g_printerr]
  | some f => rw [just_save_eq s f h]; exact h

theorem on_save_response_some (s : State) (file : GFile) :
    on_save_response s (some file) =
      { s with opened_file := some file,
               async_calls := s.async_calls ++
                 [AsyncOp.replace_contents file
                   ((utf8Encode s.buffer.text.data).takeWhile (fun b => b != 0))] } := by
  show save_file { s with opened_file := some file } file = _
  rw [save_file_eq]

theorem on_save_response_none (s : State) :
    on_save_response s none = { s with opened_file := none } := rfl

theorem step_opened_file_isSome (s : State) (e : Event) (hset : s.opened_file.isSome = true)
    (hno : e.isCancelledPicker = false) : (step s e).opened_file.isSome = true := by
  cases e with
  | open_response finish =>
    cases finish with
    | none => simp [Event.isCancelledPicker] at hno
    | some f => simp [step, on_open_response_some]
  | open_complete file result info =>
    simp only [step, open_file_complete_opened_file, hset]
  | save_response finish =>
    cases finish with
    | none => simp [Event.isCancelledPicker] at hno
    | some f => simp [step, on_save_response_some]
  | save_complete file error info =>
    simp only [step, save_file_complete_opened_file, hset]
  | just_save => simp only [step, just_save_opened_file, hset]
  | cursor_moved => exact hset

/-! ## The iterator against the count of line breaks -/

theorem lineBreaksBefore_succ (text : List Char) (k : Nat) :
    lineBreaksBefore text (k + 1)
      = lineBreaksBefore text k + (if lineBreakEndsAt text k then 1 else 0) := by
  unfold lineBreaksBefore
  rw [List.range_succ, List.filter_append, List.length_append]
  by_cases h : lineBreakEndsAt text k = true
  · simp [h]
  · simp [h]

theorem lineStart_le (text : List Char) (k : Nat) : lineStart text k ≤ k := by
  induction k with
  | zero => exact Nat.le_refl 0
  | succ k ih =>
    unfold lineStart
    split_ifs
    · exact Nat.le_refl _
    · omega

theorem lineBreakEndsAt_append (pre : List Char) (c : Char) (rest : List Char) :
    lineBreakEndsAt (pre ++ c :: rest) pre.length = endsParagraph c rest.head? := by
  unfold lineBreakEndsAt
  rw [List.drop_left]

theorem iter_forward_chars_spec (rest : List Char) :
    ∀ (pre : List Char) (n : Nat), n ≤ rest.length →
    iter_forward_chars rest n
      ⟨pre.length, lineBreaksBefore (pre ++ rest) pre.length,
        pre.length - lineStart (pre ++ rest) pre.length⟩
    = ⟨pre.length + n, lineBreaksBefore (pre ++ rest) (pre.length + n),
        pre.length + n - lineStart (pre ++ rest) (pre.length + n)⟩ := by
  induction rest with
  | nil =>
    intro pre n hn
    have : n = 0 := by simpa using hn
    subst this
    rfl
  | cons c r ih =>
    intro pre n hn
    cases n with
    | zero => rfl
    | succ m =>
      have hm : m ≤ r.length := by simpa using hn
      have happ : pre ++ c :: r = (pre ++ [c]) ++ r := by simp
      have hlen : (pre ++ [c]).length = pre.length + 1 := by simp
      have hstep := ih (pre ++ [c]) m hm
      rw [← happ, hlen] at hstep
      have hb := lineBreaksBefore_succ (pre ++ c :: r) pre.length
      have he := lineBreakEndsAt_append pre c r
      have hle := lineStart_le (pre ++ c :: r) pre.length
      have hs : lineStart (pre ++ c :: r) (pre.length + 1)
          = if lineBreakEndsAt (pre ++ c :: r) pre.length then pre.length + 1
            else lineStart (pre ++ c :: r) pre.length := rfl
      have hadd : pre.length + (m + 1) = pre.length + 1 + m := by omega
      rw [hadd, ← hstep]
      rw [iter_forward_chars_cons]
      by_cases hc : endsParagraph c r.head? = true
      · rw [if_pos hc]
        rw [he, hc] at hb hs
        simp only [if_true] at hb hs
        congr 1
        simp only [GtkTextIter.mk.injEq]
        refine ⟨trivial, ?_, ?_⟩ <;> omega
      · rw [if_neg hc]
        have hc2 : endsParagraph c r.head? = false := by simpa using hc
        rw [he, hc2] at hb hs
        simp only [Bool.false_eq_true, if_false] at hb hs
        congr 1
        simp only [GtkTextIter.mk.injEq]
        refine ⟨trivial, ?_, ?_⟩ <;> omega

theorem get_iter_at_offset_eq (buffer : GtkTextBuffer) (offset : Nat)
    (h : offset ≤ buffer.text.length) :
    gtk_text_buffer_get_iter_at_offset buffer offset
      = ⟨offset, lineBreaksBefore buffer.text.data offset,
          offset - lineStart buffer.text.data offset⟩ := by
  have key := iter_forward_chars_spec buffer.text.data [] offset h
  simp only [List.length_nil, List.nil_append, Nat.zero_add] at key
  exact key

/-! ## Saving and reading back -/

theorem issued_on_save_response (s : State) (L : GFile)
    (h : '\x00' ∉ s.buffer.text.data) :
    issued s (on_save_response s (some L))
      = [AsyncOp.replace_contents L (utf8Encode s.buffer.text.data)] := by
  have hz : (utf8Encode s.buffer.text.data).takeWhile (fun b => b != 0)
      = utf8Encode s.buffer.text.data := by
    rw [← take_strlen]
    exact take_strlen_of_no_zero _ (utf8Encode_no_zero _ h)
  rw [on_save_response_some, hz]
  unfold issued
  simp only [List.drop_left]

/-! ## A file longer than an `int` can count -/

theorem utf8Decode_replicate (n : Nat) :
    utf8Decode (List.replicate n 0x61) = some (List.replicate n 'a') := by
  induction n with
  | zero => rfl
  | succ n ih =>
    rw [List.replicate_succ, utf8Decode_cons, if_pos (by decide), ih]
    rfl

theorem zero_not_mem_replicate (n : Nat) : 0 ∉ List.replicate n 0x61 := by
  intro h
  have := List.eq_of_mem_replicate h
  omega

theorem set_text_zero (buffer : GtkTextBuffer) (text : List Nat) :
    gtk_text_buffer_set_text buffer text 0 = { text := "", cursor_position := 0 } := rfl

theorem open_replicate_of_int_zero (s : State) (file : GFile) (info : Option GFileInfo)
    (n : Nat) (hn : gsize_to_int n = 0) :
    (open_file_complete (on_open_response s (some file)) file
        (LoadResult.contents (List.replicate n 0x61)) info).buffer.text = "" ∧
    (open_file_complete (on_open_response s (some file)) file
        (LoadResult.contents (List.replicate n 0x61)) info).toasts
      = s.toasts ++ ["Opened “" ++ query_display_name file info ++ "”"] := by
  have hv : g_utf8_validate (List.replicate n 0x61) = true := by
    unfold g_utf8_validate
    rw [utf8Decode_replicate]
    simp only [zero_not_mem_replicate n, not_false_eq_true, decide_True, Option.isSome_some,
      Bool.and_self]
  have hlen : (List.replicate n 0x61).length = n := List.length_replicate n 0x61
  unfold open_file_complete
  simp only [LoadResult.err, LoadResult.bytes, hv, hlen, hn, set_text_zero, Option.isSome_none,
    Bool.false_eq_true, if_false, Bool.not_true]
  rw [on_open_response_some]
  exact ⟨rfl, rfl⟩

/-! ## A text longer than an `int` can count -/

theorem strlen_of_no_zero (B : List Nat) (h0 : 0 ∉ B) : strlen B = B.length := by
  have h := take_strlen_of_no_zero B h0
  rw [take_strlen] at h
  unfold strlen
  rw [h]

theorem set_text_of_int_nonpos (buffer : GtkTextBuffer) (B : List Nat) (h0 : 0 ∉ B)
    (hbig : gsize_to_int B.length ≤ 0) :
    gtk_text_buffer_set_text buffer B (gsize_to_int B.length)
      = { text := "", cursor_position := 0 } := by
  unfold gtk_text_buffer_set_text
  rw [strlen_of_no_zero B h0]
  have hlen : (if gsize_to_int B.length < 0 then gsize_to_int B.length
      else gsize_to_int B.length) = gsize_to_int B.length := by
    split_ifs <;> rfl
  simp only [hlen]
  have hnot : ¬ (gsize_to_int B.length > 0) := by omega
  rw [if_neg hnot]

theorem open_file_complete_of_int_nonpos (s : State) (file : GFile) (B : List Nat)
    (info : Option GFileInfo) (text : List Char) (h0 : 0 ∉ B) (hd : utf8Decode B = some text)
    (hbig : gsize_to_int B.length ≤ 0) :
    open_file_complete s file (LoadResult.contents B) info =
      { s with buffer := { text := "", cursor_position := 0 },
               title := query_display_name file info,
               toasts := s.toasts ++ ["Opened “" ++ query_display_name file info ++ "”"] } := by
  have hv : g_utf8_validate B = true := by simp [g_utf8_validate, h0, hd]
  simp [open_file_complete, LoadResult.err, LoadResult.bytes, hv,
    set_text_of_int_nonpos s.buffer B h0 hbig,
    gtk_text_buffer_place_cursor, gtk_text_buffer_get_start_iter, add_toast]

theorem utf8Encode_replicate_length (n : Nat) :
    (utf8Encode (List.replicate n 'é')).length = 2 * n := by
  induction n with
  | zero => rfl
  | succ n ih =>
    rw [List.replicate_succ]
    show (utf8EncodeChar 'é' ++ utf8Encode (List.replicate n 'é')).length = _
    rw [List.length_append, ih]
    have h : (utf8EncodeChar 'é').length = 2 := by decide
    rw [h]
    omega

theorem nul_not_mem_replicate (n : Nat) : '\x00' ∉ List.replicate n 'é' := by
  intro h
  have h2 := List.eq_of_mem_replicate h
  exact absurd h2 (by decide)

theorem round_trip_of_long_text (s mid : State) (L : GFile) (st : Storage)
    (info : Option GFileInfo) (hnul : '\x00' ∉ s.buffer.text.data)
    (hbig : gsize_to_int (utf8Encode s.buffer.text.data).length ≤ 0) :
    (open_file_complete (on_open_response mid (some L)) L
        (((issued s (on_save_response s (some L))).foldl Storage.perform st).readAll L)
        info).buffer.text = "" ∧
    (open_file_complete (on_open_response mid (some L)) L
        (((issued s (on_save_response s (some L))).foldl Storage.perform st).readAll L)
        info).toasts = mid.toasts ++ ["Opened “" ++ query_display_name L info ++ "”"] := by
  have hi := issued_on_save_response s L hnul
  have hread : ((issued s (on_save_response s (some L))).foldl Storage.perform st).readAll L
      = LoadResult.contents (utf8Encode s.buffer.text.data) := by
    rw [hi]
    simp [Storage.perform, Storage.replaceAll, Storage.readAll]
  rw [hread, open_file_complete_of_int_nonpos _ L _ info s.buffer.text.data
    (utf8Encode_no_zero _ hnul) (utf8Decode_encode _) hbig, on_open_response_some]
  exact ⟨rfl, rfl⟩

/-! ## The claims -/

/-- C1, as stated, fails: the three bytes `61 00 62` are well-formed UTF-8 (they
decode to "a", U+0000, "b"), yet opening a file with this content leaves the
buffer as it was and shows the toast for an invalid encoding. -/
theorem open_valid_utf8_with_nul_is_refused :
    utf8Decode [0x61, 0, 0x62] = some ['a', '\x00', 'b'] ∧
    (open_file_complete (on_open_response window1 (some draft)) draft
        (LoadResult.contents [0x61, 0, 0x62]) none).buffer.text = "hello" ∧
    (open_file_complete (on_open_response window1 (some draft)) draft
        (LoadResult.contents [0x61, 0, 0x62]) none).toasts
      = ["Opened “notes.txt”", "Invalid text encoding for “draft.txt”"] := by
  decide

/-- The length bound of C1 is needed: for a file of 2^32 bytes "a", which are
well-formed UTF-8 without a zero byte, the `int` length handed to
`gtk_text_buffer_set_text` is 0 and the buffer ends up empty, under the toast
"Opened". -/
theorem open_of_two_pow_32_bytes_empties_buffer :
    utf8Decode (List.replicate 4294967296 0x61) = some (List.replicate 4294967296 'a') ∧
    0 ∉ List.replicate 4294967296 0x61 ∧
    (open_file_complete (on_open_response window1 (some draft)) draft
        (LoadResult.contents (List.replicate 4294967296 0x61)) none).buffer.text = "" ∧
    (open_file_complete (on_open_response window1 (some draft)) draft
        (LoadResult.contents (List.replicate 4294967296 0x61)) none).toasts
      = ["Opened “notes.txt”", "Opened “draft.txt”"] := by
  have h := open_replicate_of_int_zero window1 draft none 4294967296 (by decide)
  exact ⟨utf8Decode_replicate 4294967296, zero_not_mem_replicate 4294967296, h.1, h.2⟩

/-- C1, amended: for every byte sequence `B` that is well-formed UTF-8, has no
zero byte and is shorter than 2^31 bytes, and every prior state, the open
dialog answering with a file followed by the completion of a successful read
of `B` leaves the buffer text equal to the decoded text of `B`, the cursor at
offset 0, and adds exactly one toast, "Opened" with the display name. -/
theorem open_valid_utf8_sets_buffer (s : State) (file : GFile) (B : List Nat)
    (info : Option GFileInfo) (text : List Char)
    (hvalid : utf8Decode B = some text) (hnul : 0 ∉ B) (hlen : B.length < 2 ^ 31) :
    (open_file_complete (on_open_response s (some file)) file
        (LoadResult.contents B) info).buffer.text = String.mk text ∧
    (open_file_complete (on_open_response s (some file)) file
        (LoadResult.contents B) info).buffer.cursor_position = 0 ∧
    (open_file_complete (on_open_response s (some file)) file
        (LoadResult.contents B) info).toasts
      = s.toasts ++ ["Opened “" ++ query_display_name file info ++ "”"] := by
  rw [open_file_complete_valid _ file B info text hlen hnul hvalid, on_open_response_some]
  exact ⟨rfl, rfl, rfl⟩

theorem open_valid_utf8_sets_buffer_witness :
    utf8Decode [0x68, 0xC3, 0xA9] = some ['h', 'é'] ∧ 0 ∉ [0x68, 0xC3, 0xA9] ∧
    [0x68, 0xC3, 0xA9].length < 2 ^ 31 ∧
    (open_file_complete (on_open_response window1 (some draft)) draft
        (LoadResult.contents [0x68, 0xC3, 0xA9]) none).buffer.text = String.mk ['h', 'é'] ∧
    (open_file_complete (on_open_response window1 (some draft)) draft
        (LoadResult.contents [0x68, 0xC3, 0xA9]) none).buffer.cursor_position = 0 ∧
    (open_file_complete (on_open_response window1 (some draft)) draft
        (LoadResult.contents [0x68, 0xC3, 0xA9]) none).toasts
      = window1.toasts ++ ["Opened “" ++ query_display_name draft none ++ "”"] :=
  ⟨by decide, by decide, by decide,
    open_valid_utf8_sets_buffer window1 draft [0x68, 0xC3, 0xA9] none ['h', 'é']
      (by decide) (by decide) (by decide)⟩

/-- C2, as stated, fails: after an open of `draft` whose content is the single
byte `FF`, `opened_file` is `draft` and no longer `notes`. -/
theorem open_invalid_utf8_changes_opened_file :
    utf8Decode [0xFF] = none ∧
    window1.opened_file = some notes ∧
    (open_file_complete (on_open_response window1 (some draft)) draft
        (LoadResult.contents [0xFF]) none).opened_file = some draft ∧
    (open_file_complete (on_open_response window1 (some draft)) draft
        (LoadResult.contents [0xFF]) none).opened_file ≠ window1.opened_file := by
  decide

/-- C2, amended: for every byte sequence `B` that is not well-formed UTF-8 and
every prior state, the open dialog answering with a file followed by the
completion of a successful read of `B` leaves the buffer as it was, leaves
`opened_file` at the file chosen in the dialog, and adds exactly one toast,
"Invalid text encoding for" the display name. -/
theorem open_invalid_utf8_keeps_buffer (s : State) (file : GFile) (B : List Nat)
    (info : Option GFileInfo) (hinvalid : utf8Decode B = none) :
    (open_file_complete (on_open_response s (some file)) file
        (LoadResult.contents B) info).buffer = s.buffer ∧
    (open_file_complete (on_open_response s (some file)) file
        (LoadResult.contents B) info).opened_file = some file ∧
    (open_file_complete (on_open_response s (some file)) file
        (LoadResult.contents B) info).toasts
      = s.toasts ++ ["Invalid text encoding for “" ++ query_display_name file info ++ "”"] := by
  rw [open_file_complete_invalid _ file B info (g_utf8_validate_of_decode_none B hinvalid),
    on_open_response_some]
  exact ⟨rfl, rfl, rfl⟩

theorem open_invalid_utf8_keeps_buffer_witness :
    utf8Decode [0xC0, 0x80] = none ∧
    (open_file_complete (on_open_response window1 (some draft)) draft
        (LoadResult.contents [0xC0, 0x80]) none).buffer = window1.buffer ∧
    (open_file_complete (on_open_response window1 (some draft)) draft
        (LoadResult.contents [0xC0, 0x80]) none).opened_file = some draft ∧
    (open_file_complete (on_open_response window1 (some draft)) draft
        (LoadResult.contents [0xC0, 0x80]) none).toasts
      = window1.toasts ++ ["Invalid text encoding for “" ++ query_display_name draft none ++ "”"] :=
  ⟨by decide, open_invalid_utf8_keeps_buffer window1 draft [0xC0, 0x80] none (by decide)⟩

/-- C3, as stated, fails: in a window that shows `notes`, closing the open
dialog without a choice leaves `opened_file` unset. -/
theorem cancelled_open_unsets_opened_file :
    window1.opened_file = some notes ∧
    (on_open_response window1 none).opened_file = none := by
  decide

/-- C3, amended: for every prior state, when the open dialog yields no file,
`on_open_response` leaves the buffer unchanged, adds no toast and issues no
read; `opened_file` takes the result of the dialog and so is unset afterwards
(which is its prior value exactly when no file was set before). -/
theorem cancelled_open_keeps_buffer (s : State) :
    (on_open_response s none).buffer = s.buffer ∧
    (on_open_response s none).toasts = s.toasts ∧
    (on_open_response s none).async_calls = s.async_calls ∧
    (on_open_response s none).opened_file = none ∧
    on_open_response s none = { s with opened_file := none } :=
  ⟨rfl, rfl, rfl, rfl, rfl⟩

/-- C4, as stated, fails: after `notes` was opened, closing the open dialog
without a choice returns `opened_file` to unset. -/
theorem opened_file_returns_to_unset :
    (run window0 [Event.open_response (some notes),
        Event.open_complete notes (LoadResult.contents [0x68, 0x69]) none]).opened_file
      = some notes ∧
    (run window0 [Event.open_response (some notes),
        Event.open_complete notes (LoadResult.contents [0x68, 0x69]) none,
        Event.open_response none]).opened_file = none := by
  decide

/-- C4, amended: `opened_file` is written only by the callbacks of the two file
dialogs, which store what the dialog returned; every other callback leaves it
as it was.  So over every sequence of callbacks in which no file dialog is
closed without a choice, an `opened_file` that is set stays set. -/
theorem opened_file_stays_set_without_cancel (s : State) (events : List Event)
    (hset : s.opened_file.isSome = true)
    (hno : ∀ e ∈ events, e.isCancelledPicker = false) :
    (run s events).opened_file.isSome = true ∧
    (∀ (t : State) (finish : Option GFile),
      (step t (Event.open_response finish)).opened_file = finish ∧
      (step t (Event.save_response finish)).opened_file = finish) ∧
    (∀ (t : State) (file : GFile) (result : LoadResult) (error : Option GError)
      (info : Option GFileInfo),
      (step t (Event.open_complete file result info)).opened_file = t.opened_file ∧
      (step t (Event.save_complete file error info)).opened_file = t.opened_file ∧
      (step t Event.just_save).opened_file = t.opened_file ∧
      (step t Event.cursor_moved).opened_file = t.opened_file) := by
  refine ⟨?_, ?_, ?_⟩
  · induction events generalizing s with
    | nil => exact hset
    | cons e es ih =>
      have h1 : (step s e).opened_file.isSome = true :=
        step_opened_file_isSome s e hset (hno e (List.mem_cons_self e es))
      exact ih (step s e) h1 (fun e' he' => hno e' (List.mem_cons_of_mem e he'))
  · intro t finish
    cases finish with
    | none => exact ⟨rfl, rfl⟩
    | some f =>
      refine ⟨rfl, ?_⟩
      show (on_save_response t (some f)).opened_file = some f
      rw [on_save_response_some]
  · intro t file result error info
    exact ⟨open_file_complete_opened_file t file result info,
      save_file_complete_opened_file t file error info, just_save_opened_file t, rfl⟩

theorem opened_file_stays_set_without_cancel_witness :
    (run window1 [Event.save_response (some draft), Event.save_complete draft none none,
        Event.just_save, Event.cursor_moved]).opened_file.isSome = true :=
  (opened_file_stays_set_without_cancel window1
    [Event.save_response (some draft), Event.save_complete draft none none,
      Event.just_save, Event.cursor_moved] (by decide) (by decide)).1

/-- C5 on the code: with an empty buffer, `on_save_response` with a chosen file
issues a replace of the file's contents with zero bytes, and the completion of
that write adds the toast "Saved as". -/
theorem save_as_of_empty_buffer_writes :
    window0.buffer.text = "" ∧
    (on_save_response window0 (some draft)).async_calls
      = [AsyncOp.replace_contents draft []] ∧
    (save_file_complete (on_save_response window0 (some draft)) draft none none).toasts
      = ["Saved as “draft.txt”"] := by
  decide

/-- C6: for every state in which `opened_file` is unset,
`just_save_the_opened_file` reports "No file is currently opened to save." on
the error output and does nothing else: no write is issued, no toast is added,
and the buffer and `opened_file` are unchanged. -/
theorem just_save_without_opened_file (s : State) (h : s.opened_file = none) :
    just_save_the_opened_file s
      = { s with stderr := s.stderr ++ ["No file is currently opened to save.\n"] } ∧
    (just_save_the_opened_file s).async_calls = s.async_calls ∧
    (just_save_the_opened_file s).buffer = s.buffer ∧
    (just_save_the_opened_file s).opened_file = s.opened_file ∧
    (just_save_the_opened_file s).toasts = s.toasts := by
  have e : just_save_the_opened_file s
      = { s with stderr := s.stderr ++ ["No file is currently opened to save.\n"] } := by
    simp only [just_save_the_opened_file, h, g_printerr]
  rw [e]
  exact ⟨rfl, rfl, rfl, rfl, rfl⟩

theorem just_save_without_opened_file_witness :
    window0.opened_file = none ∧
    (just_save_the_opened_file window0).stderr = ["No file is currently opened to save.\n"] ∧
    (just_save_the_opened_file window0).async_calls = [] := by
  have h := just_save_without_opened_file window0 (by decide)
  exact ⟨by decide, by rw [h.1]; rfl, h.2.1⟩

/-- C7, as stated, fails: a save-as to `draft` whose write fails, requested
while `opened_file` is `notes`, leaves `opened_file` at `draft`. -/
theorem failed_save_as_changes_opened_file :
    window1.opened_file = some notes ∧
    (save_file_complete (on_save_response window1 (some draft)) draft
        (some { message := "Permission denied" }) none).opened_file = some draft ∧
    (save_file_complete (on_save_response window1 (some draft)) draft
        (some { message := "Permission denied" }) none).toasts
      = ["Opened “notes.txt”", "Unable to save as “draft.txt”"] := by
  decide

/-- C7, amended: for every save-as to a destination `L`, whether its write
fails or succeeds, `opened_file` is `L` afterwards; when the write fails
exactly one toast "Unable to save as" the display name is added, and when it
succeeds exactly one toast "Saved as" the display name. -/
theorem save_as_sets_opened_file (s : State) (L : GFile) (info : Option GFileInfo) :
    (∀ e : GError,
      (save_file_complete (on_save_response s (some L)) L (some e) info).opened_file = some L ∧
      (save_file_complete (on_save_response s (some L)) L (some e) info).toasts
        = s.toasts ++ ["Unable to save as “" ++ query_display_name L info ++ "”"]) ∧
    (save_file_complete (on_save_response s (some L)) L none info).opened_file = some L ∧
    (save_file_complete (on_save_response s (some L)) L none info).toasts
      = s.toasts ++ ["Saved as “" ++ query_display_name L info ++ "”"] := by
  rw [on_save_response_some]
  exact ⟨fun e => ⟨rfl, rfl⟩, rfl, rfl⟩

/-- C10: every operation that ends in a failure leaves the buffer as it was
before the operation and adds one toast that reports the failure: an open whose
read fails ("Unable to open"), an open whose bytes `g_utf8_validate` refuses
("Invalid text encoding for"), and a save-as or a save whose write fails
("Unable to save as"). -/
theorem failures_keep_buffer_and_toast (s : State) (file : GFile) (info : Option GFileInfo)
    (e : GError) :
    ((open_file_complete (on_open_response s (some file)) file
        (LoadResult.error e) info).buffer = s.buffer ∧
     (open_file_complete (on_open_response s (some file)) file
        (LoadResult.error e) info).toasts
        = s.toasts ++ ["Unable to open “" ++ query_display_name file info ++ "”"]) ∧
    (∀ B : List Nat, g_utf8_validate B = false →
     (open_file_complete (on_open_response s (some file)) file
        (LoadResult.contents B) info).buffer = s.buffer ∧
     (open_file_complete (on_open_response s (some file)) file
        (LoadResult.contents B) info).toasts
        = s.toasts ++ ["Invalid text encoding for “" ++ query_display_name file info ++ "”"]) ∧
    ((save_file_complete (on_save_response s (some file)) file (some e) info).buffer = s.buffer ∧
     (save_file_complete (on_save_response s (some file)) file (some e) info).toasts
        = s.toasts ++ ["Unable to save as “" ++ query_display_name file info ++ "”"]) ∧
    (s.opened_file = some file →
     (save_file_complete (just_save_the_opened_file s) file (some e) info).buffer = s.buffer ∧
     (save_file_complete (just_save_the_opened_file s) file (some e) info).toasts
        = s.toasts ++ ["Unable to save as “" ++ query_display_name file info ++ "”"]) := by
  refine ⟨?_, ?_, ?_, ?_⟩
  · rw [open_file_complete_error, on_open_response_some]
    exact ⟨rfl, rfl⟩
  · intro B hB
    rw [open_file_complete_invalid _ file B info hB, on_open_response_some]
    exact ⟨rfl, rfl⟩
  · rw [on_save_response_some]
    exact ⟨rfl, rfl⟩
  · intro h
    rw [just_save_eq s file h]
    exact ⟨rfl, rfl⟩

theorem failures_keep_buffer_and_toast_witness :
    (g_utf8_validate [0x61, 0, 0x62] = false ∧
     (open_file_complete (on_open_response window1 (some notes)) notes
        (LoadResult.contents [0x61, 0, 0x62]) none).buffer = window1.buffer) ∧
    (window1.opened_file = some notes ∧
     (save_file_complete (just_save_the_opened_file window1) notes
        (some { message := "No space left on device" }) none).buffer = window1.buffer) :=
  ⟨⟨by decide,
    ((failures_keep_buffer_and_toast window1 notes none
      { message := "No space left on device" }).2.1 [0x61, 0, 0x62] (by decide)).1⟩,
   ⟨by decide,
    ((failures_keep_buffer_and_toast window1 notes none
      { message := "No space left on device" }).2.2.2 (by decide)).1⟩⟩

/-- C8, as stated, fails: a buffer of 2^30 characters "é" has no character
U+0000; its save-as to `draft` issues one write, of the 2^31 bytes of its UTF-8
encoding; and the open of `draft` that reads these bytes back, in the window
as the save left it, shows the toast "Opened" and leaves the buffer empty: the
`int` length handed to `gtk_text_buffer_set_text` is negative, and so is the
`strlen` that stands in for it. -/
theorem round_trip_of_two_pow_30_chars_empties_buffer :
    '\x00' ∉ longWindow.buffer.text.data ∧
    longWindow.buffer.text.data.length = 1073741824 ∧
    issued longWindow (on_save_response longWindow (some draft))
      = [AsyncOp.replace_contents draft (utf8Encode longWindow.buffer.text.data)] ∧
    (utf8Encode longWindow.buffer.text.data).length = 2147483648 ∧
    (open_file_complete
        (on_open_response
          (save_file_complete (on_save_response longWindow (some draft)) draft none none)
          (some draft)) draft
        (((issued longWindow (on_save_response longWindow (some draft))).foldl
          Storage.perform emptyStorage).readAll draft)
        none).buffer.text = "" ∧
    (open_file_complete
        (on_open_response
          (save_file_complete (on_save_response longWindow (some draft)) draft none none)
          (some draft)) draft
        (((issued longWindow (on_save_response longWindow (some draft))).foldl
          Storage.perform emptyStorage).readAll draft)
        none).toasts = ["Saved as “draft.txt”", "Opened “draft.txt”"] ∧
    longWindow.buffer.text ≠ "" := by
  have hdata : longWindow.buffer.text.data = List.replicate 1073741824 'é' := rfl
  have hnul : '\x00' ∉ longWindow.buffer.text.data := by
    rw [hdata]
    exact nul_not_mem_replicate 1073741824
  have hlen : (utf8Encode longWindow.buffer.text.data).length = 2147483648 := by
    rw [hdata, utf8Encode_replicate_length]
  have hbig : gsize_to_int (utf8Encode longWindow.buffer.text.data).length ≤ 0 := by
    rw [hlen]
    decide
  have h := round_trip_of_long_text longWindow
    (save_file_complete (on_save_response longWindow (some draft)) draft none none)
    draft emptyStorage none hnul hbig
  refine ⟨hnul, ?_, issued_on_save_response longWindow draft hnul, hlen, h.1, ?_, ?_⟩
  · rw [hdata, List.length_replicate]
  · rw [h.2, on_save_response_some]
    rfl
  · intro he
    have h2 : longWindow.buffer.text.data.length = 0 := by rw [he]; rfl
    rw [hdata, List.length_replicate] at h2
    omega

/-- The condition of C8 on U+0000 is needed in this model: a buffer text "a",
U+0000, "b" is written as the single byte `61`, where `strlen` cuts it, and
is read back as "a". -/
theorem round_trip_of_text_with_nul_cuts_text :
    (on_save_response { window0 with buffer := { text := "a\x00b", cursor_position := 0 } }
        (some draft)).async_calls = [AsyncOp.replace_contents draft [0x61]] ∧
    (open_file_complete (on_open_response window0 (some draft)) draft
        (LoadResult.contents [0x61]) none).buffer.text = "a" := by
  decide

/-- C8, amended: round trip.  For every buffer text `T` that has no character
U+0000 and whose UTF-8 encoding is shorter than 2^31 bytes, and every location
`L`, over a storage in which a successful replace stores exactly the written
bytes: the save-as of `T` to `L` issues one write, of the UTF-8 encoding of
`T`; and an open of `L` that reads what this write stored, from whatever state
`mid` the window is in by then, succeeds (the toast is "Opened") and leaves the
buffer text equal to `T`. -/
theorem save_as_then_open_round_trip (s mid : State) (L : GFile) (st : Storage)
    (info : Option GFileInfo) (hnul : '\x00' ∉ s.buffer.text.data)
    (hlen : (utf8Encode s.buffer.text.data).length < 2 ^ 31) :
    issued s (on_save_response s (some L))
      = [AsyncOp.replace_contents L (utf8Encode s.buffer.text.data)] ∧
    (open_file_complete (on_open_response mid (some L)) L
        (((issued s (on_save_response s (some L))).foldl Storage.perform st).readAll L)
        info).buffer.text = s.buffer.text ∧
    (open_file_complete (on_open_response mid (some L)) L
        (((issued s (on_save_response s (some L))).foldl Storage.perform st).readAll L)
        info).toasts = mid.toasts ++ ["Opened “" ++ query_display_name L info ++ "”"] := by
  have hi := issued_on_save_response s L hnul
  have hread : ((issued s (on_save_response s (some L))).foldl Storage.perform st).readAll L
      = LoadResult.contents (utf8Encode s.buffer.text.data) := by
    rw [hi]
    simp [Storage.perform, Storage.replaceAll, Storage.readAll]
  rw [hread, open_file_complete_valid _ L _ info s.buffer.text.data hlen
    (utf8Encode_no_zero _ hnul) (utf8Decode_encode _), on_open_response_some]
  exact ⟨hi, rfl, rfl⟩

theorem save_as_then_open_round_trip_witness :
    '\x00' ∉ window1.buffer.text.data ∧
    (utf8Encode window1.buffer.text.data).length < 2 ^ 31 ∧
    (open_file_complete (on_open_response window0 (some draft)) draft
        (((issued window1 (on_save_response window1 (some draft))).foldl
          Storage.perform emptyStorage).readAll draft)
        none).buffer.text = "hello" :=
  ⟨by decide, by decide,
    (save_as_then_open_round_trip window1 window0 draft emptyStorage none
      (by decide) (by decide)).2.1⟩

/-- C9: for every buffer text and every character offset of the cursor within
it, `text_viewer_window__update_cursor_position` sets the label to "Ln l, Col c"
where `l` is 1 plus the number of line breaks among the characters before the
offset and `c` is 1 plus the number of characters between the start of that
line and the offset; it changes neither the buffer nor `opened_file`; and for
the buffer "ab\ncd" with the cursor at offset 3 the label is "Ln 2, Col 1". -/
theorem cursor_label_counts_lines_and_columns (s : State)
    (h : s.buffer.cursor_position ≤ s.buffer.text.length) :
    (text_viewer_window__update_cursor_position s).cursor_pos
      = "Ln " ++ toString (1 + lineBreaksBefore s.buffer.text.data s.buffer.cursor_position)
        ++ ", Col " ++ toString (1 + (s.buffer.cursor_position
            - lineStart s.buffer.text.data s.buffer.cursor_position)) ∧
    (text_viewer_window__update_cursor_position s).buffer = s.buffer ∧
    (text_viewer_window__update_cursor_position s).opened_file = s.opened_file ∧
    (text_viewer_window__update_cursor_position
      { s with buffer := { text := "ab\ncd", cursor_position := 3 } }).cursor_pos
      = "Ln 2, Col 1" := by
  refine ⟨?_, rfl, rfl, ?_⟩
  · unfold text_viewer_window__update_cursor_position
    simp only [get_iter_at_offset_eq s.buffer s.buffer.cursor_position h,
      gtk_text_iter_get_line, gtk_text_iter_get_line_offset]
    rw [Nat.add_comm (lineBreaksBefore _ _) 1, Nat.add_comm (_ - _) 1]
  · show "Ln " ++ toString (gtk_text_iter_get_line (gtk_text_buffer_get_iter_at_offset
        { text := "ab\ncd", cursor_position := 3 } 3) + 1)
      ++ ", Col " ++ toString (gtk_text_iter_get_line_offset (gtk_text_buffer_get_iter_at_offset
        { text := "ab\ncd", cursor_position := 3 } 3) + 1) = "Ln 2, Col 1"
    decide

theorem cursor_label_counts_lines_and_columns_witness :
    (2 ≤ "a\r\nb\nc".length) ∧
    (text_viewer_window__update_cursor_position
      { window0 with buffer := { text := "a\r\nb\nc", cursor_position := 2 } }).cursor_pos
      = "Ln 1, Col 3" := by
  refine ⟨by decide, ?_⟩
  have h := (cursor_label_counts_lines_and_columns
    { window0 with buffer := { text := "a\r\nb\nc", cursor_position := 2 } } (by decide)).1
  rw [h]
  decide

end TextViewer
